import Mathlib

/-!
Verification of the midi-2 UMP codec (lib/midi-2-protocol).

A packet is modelled as a flat, Msb0-ordered bit sequence `Nat → Bool`
(bit 0 is the most significant bit of word 0), with the buffer bit length
passed explicitly where the source inspects it.  `loadBe`/`storeBe` model
the bitvec `load_be`/`store_be` operations used by every field accessor.

Width-bounded field value types (Rust `UInt<uN, w>` wrappers) are
modelled as subtypes `{ n : Nat // n < 2 ^ w }`; primitive field value
types (plain `u8`/`u16`/`u32` wrappers) as subtypes at the full integer
width, which is exactly the Rust integer domain.
-/

namespace Midi2

/-- The error type of the crate (`Error` in lib.rs / message.rs).
`conversion` carries the rejected raw code, `overflow` the value and the
declared bit width, `size` the expected and actual bit counts. -/
inductive Error where
  | conversion (value : Nat) : Error
  | overflow (value : Nat) (size : Nat) : Error
  | size (expected : Nat) (actual : Nat) : Error
deriving DecidableEq, Repr

/-- Result of an operation that, in the Rust source, may also panic
(an `unreachable!` arm or a failing `unwrap`), besides returning
`Ok`/`Err`. -/
inductive Res (α : Type) where
  | ok (a : α) : Res α
  | err (e : Error) : Res α
  | panicked : Res α
deriving DecidableEq, Repr

/-- Functorial map on `Res`, propagating errors and panics. -/
def Res.map {α β : Type} (f : α → β) : Res α → Res β
  | .ok a => .ok (f a)
  | .err e => .err e
  | .panicked => .panicked

/-- Big-endian load of `width` bits starting at bit index `lo`
(bitvec `BitSlice<u32, Msb0>::load_be` on the range `lo..=lo+width-1`):
the bit at index `lo` is the most significant bit of the result. -/
def loadBe (bits : Nat → Bool) (lo : Nat) : Nat → Nat
  | 0 => 0
  | w + 1 => 2 * loadBe bits lo w + (if bits (lo + w) then 1 else 0)

/-- Big-endian store of the low `width` bits of `v` starting at bit index
`lo` (bitvec `store_be` on the range `lo..=lo+width-1`): the bit at index
`lo` receives bit `width-1` of `v`, and all bits outside the range are
left untouched. -/
def storeBe (bits : Nat → Bool) (lo width v : Nat) : Nat → Bool :=
  fun i => if lo ≤ i ∧ i < lo + width then v.testBit (lo + width - 1 - i) else bits i

/-- A `width`-bit big-endian load is bounded by `2 ^ width` (needed by
the definitions of the primitive field reads, whose Rust `TryFrom` is
total on the loaded integer type). -/
def loadBeBound (bits : Nat → Bool) (lo : Nat) : (w : Nat) → loadBe bits lo w < 2 ^ w
  | 0 => by simp [loadBe]
  | w + 1 => by
      have ih := loadBeBound bits lo w
      simp only [loadBe, pow_succ]
      split <;> omega

/-- The bit sequence of a list of 32-bit words, Msb0 order: bit `i` is
bit `31 - i % 32` (counting from the least significant end) of word
`i / 32`.  Models `[u32]::view_bits::<Msb0>()`. -/
def bitsOfWords (ws : List Nat) : Nat → Bool :=
  fun i => (ws.getD (i / 32) 0).testBit (31 - i % 32)

/-- Word `j` of a packet bit sequence, read back as a 32-bit integer. -/
def wordAt (bits : Nat → Bool) (j : Nat) : Nat :=
  loadBe bits (32 * j) 32

/-- The all-zero bit sequence (a freshly allocated packet buffer). -/
def zeroBits : Nat → Bool := fun _ => false

/-- `Bits::reset` (message.rs): `self.bits.fill(false)` zeroes the whole
backing packet in place. -/
def resetBits (_bits : Nat → Bool) : Nat → Bool := fun _ => false

/-- `impl_message_constructors!` `try_new` (message.rs): accept the
buffer iff its bit length is exactly `size * 32`; otherwise build
`Error::size($size * 32, len.try_into().unwrap())`.  The conversion of
`len` to the `u8` error field panics when `len ≥ 256`. -/
def tryNewBits (size len : Nat) : Res Unit :=
  if len = size * 32 then .ok ()
  else if len < 256 then .err (.size (size * 32) len)
  else .panicked

-- ---------------------------------------------------------------------------
-- Field value types (message.rs)
-- ---------------------------------------------------------------------------

/-- `MessageType` (message.rs): the 4-bit Message Type field at bits
0..=3, an enumeration over the seven defined type codes. -/
inductive MessageType where
  | Utility
  | System
  | SystemExclusiveData
  | Voice
  | Data
  | FlexData
  | Stream
deriving DecidableEq, Repr

/-- `Into<u8>` for `MessageType` (the `IntoPrimitive` discriminants). -/
def MessageType.toNat : MessageType → Nat
  | .Utility => 0x0
  | .System => 0x1
  | .SystemExclusiveData => 0x3
  | .Voice => 0x4
  | .Data => 0x5
  | .FlexData => 0xd
  | .Stream => 0xf

/-- `TryFrom<u8>` for `MessageType` (`TryFromPrimitive` with
`Error::conversion` on undefined codes). -/
def MessageType.tryFrom (n : Nat) : Except Error MessageType :=
  match n with
  | 0x0 => .ok .Utility
  | 0x1 => .ok .System
  | 0x3 => .ok .SystemExclusiveData
  | 0x4 => .ok .Voice
  | 0x5 => .ok .Data
  | 0xd => .ok .FlexData
  | 0xf => .ok .Stream
  | _ => .error (.conversion n)

/-- `Value::try_read` for `MessageType` (range `0..=3`). -/
def MessageType.tryRead (bits : Nat → Bool) : Except Error MessageType :=
  MessageType.tryFrom (loadBe bits 0 4)

/-- `Value::write` for `MessageType` (range `0..=3`). -/
def MessageType.write (v : MessageType) (bits : Nat → Bool) : Nat → Bool :=
  storeBe bits 0 4 v.toNat

/-- `Group` (message.rs): a 4-bit value in a `u8` (`UInt<u8, 4>`), at
bits 4..=7. -/
def Group := { n : Nat // n < 2 ^ 4 }

/-- `TryFrom<u8>` for `Group`: `UInt::<u8, 4>::try_new`, failing with
`Error::overflow(value, 4)`. -/
def Group.tryFrom (n : Nat) : Except Error Group :=
  if h : n < 2 ^ 4 then .ok ⟨n, h⟩ else .error (.overflow n 4)

/-- `Value::try_read` for `Group` (range `4..=7`). -/
def Group.tryRead (bits : Nat → Bool) : Except Error Group :=
  Group.tryFrom (loadBe bits 4 4)

/-- `Value::write` for `Group` (range `4..=7`). -/
def Group.write (v : Group) (bits : Nat → Bool) : Nat → Bool :=
  storeBe bits 4 4 v.1

/-- `Group::default()`: the zero group. -/
def Group.zero : Group := ⟨0, by norm_num⟩

end Midi2

-- ---------------------------------------------------------------------------
-- Voice field value types (message/voice.rs)
-- ---------------------------------------------------------------------------

namespace Midi2.Voice

open Midi2

/-- `Opcode` (voice.rs): the 4-bit opcode field at bits 8..=11.  Code
0x7 is undefined. -/
inductive Opcode where
  | RegisteredPerNoteController
  | AssignablePerNoteController
  | RegisteredController
  | AssignableController
  | RelativeRegisteredController
  | RelativeAssignableController
  | PerNotePitchBend
  | NoteOff
  | NoteOn
  | PolyPressure
  | ControlChange
  | ProgramChange
  | ChannelPressure
  | PitchBend
  | PerNoteManagement
deriving DecidableEq, Repr

/-- `Into<u8>` for `Opcode`. -/
def Opcode.toNat : Opcode → Nat
  | .RegisteredPerNoteController => 0x0
  | .AssignablePerNoteController => 0x1
  | .RegisteredController => 0x2
  | .AssignableController => 0x3
  | .RelativeRegisteredController => 0x4
  | .RelativeAssignableController => 0x5
  | .PerNotePitchBend => 0x6
  | .NoteOff => 0x8
  | .NoteOn => 0x9
  | .PolyPressure => 0xa
  | .ControlChange => 0xb
  | .ProgramChange => 0xc
  | .ChannelPressure => 0xd
  | .PitchBend => 0xe
  | .PerNoteManagement => 0xf

/-- `TryFrom<u8>` for `Opcode` (`Error::conversion` on 0x7 and any other
undefined code). -/
def Opcode.tryFrom (n : Nat) : Except Error Opcode :=
  match n with
  | 0x0 => .ok .RegisteredPerNoteController
  | 0x1 => .ok .AssignablePerNoteController
  | 0x2 => .ok .RegisteredController
  | 0x3 => .ok .AssignableController
  | 0x4 => .ok .RelativeRegisteredController
  | 0x5 => .ok .RelativeAssignableController
  | 0x6 => .ok .PerNotePitchBend
  | 0x8 => .ok .NoteOff
  | 0x9 => .ok .NoteOn
  | 0xa => .ok .PolyPressure
  | 0xb => .ok .ControlChange
  | 0xc => .ok .ProgramChange
  | 0xd => .ok .ChannelPressure
  | 0xe => .ok .PitchBend
  | 0xf => .ok .PerNoteManagement
  | _ => .error (.conversion n)

/-- Field read for `Opcode` (range `8..=11`). -/
def Opcode.tryRead (bits : Nat → Bool) : Except Error Opcode :=
  Opcode.tryFrom (loadBe bits 8 4)

/-- Field write for `Opcode` (range `8..=11`). -/
def Opcode.write (v : Opcode) (bits : Nat → Bool) : Nat → Bool :=
  storeBe bits 8 4 v.toNat

/-- `Channel` (voice.rs): the 4-bit channel field at bits 12..=15, an
exhaustive enumeration of the 16 channel codes; `C1` is the default. -/
inductive Channel where
  | C1 | C2 | C3 | C4 | C5 | C6 | C7 | C8
  | C9 | C10 | C11 | C12 | C13 | C14 | C15 | C16
deriving DecidableEq, Repr

/-- `Into<u8>` for `Channel`. -/
def Channel.toNat : Channel → Nat
  | .C1 => 0x0
  | .C2 => 0x1
  | .C3 => 0x2
  | .C4 => 0x3
  | .C5 => 0x4
  | .C6 => 0x5
  | .C7 => 0x6
  | .C8 => 0x7
  | .C9 => 0x8
  | .C10 => 0x9
  | .C11 => 0xa
  | .C12 => 0xb
  | .C13 => 0xc
  | .C14 => 0xd
  | .C15 => 0xe
  | .C16 => 0xf

/-- `TryFrom<u8>` for `Channel` (total on 0..=15, `Error::conversion`
otherwise). -/
def Channel.tryFrom (n : Nat) : Except Error Channel :=
  match n with
  | 0x0 => .ok .C1
  | 0x1 => .ok .C2
  | 0x2 => .ok .C3
  | 0x3 => .ok .C4
  | 0x4 => .ok .C5
  | 0x5 => .ok .C6
  | 0x6 => .ok .C7
  | 0x7 => .ok .C8
  | 0x8 => .ok .C9
  | 0x9 => .ok .C10
  | 0xa => .ok .C11
  | 0xb => .ok .C12
  | 0xc => .ok .C13
  | 0xd => .ok .C14
  | 0xe => .ok .C15
  | 0xf => .ok .C16
  | _ => .error (.conversion n)

/-- Field read for `Channel` (range `12..=15`). -/
def Channel.tryRead (bits : Nat → Bool) : Except Error Channel :=
  Channel.tryFrom (loadBe bits 12 4)

/-- Field write for `Channel` (range `12..=15`). -/
def Channel.write (v : Channel) (bits : Nat → Bool) : Nat → Bool :=
  storeBe bits 12 4 v.toNat

/-- `Note` (voice.rs): a 7-bit value (`UInt<u8, 7>`) stored in the 8-bit
range 16..=23. -/
def Note := { n : Nat // n < 2 ^ 7 }

/-- `TryFrom<u8>` for `Note`: fails with `Error::overflow(value, 7)` at
128 and above. -/
def Note.tryFrom (n : Nat) : Except Error Note :=
  if h : n < 2 ^ 7 then .ok ⟨n, h⟩ else .error (.overflow n 7)

/-- Field read for `Note` (range `16..=23`). -/
def Note.tryRead (bits : Nat → Bool) : Except Error Note :=
  Note.tryFrom (loadBe bits 16 8)

/-- Field write for `Note` (range `16..=23`). -/
def Note.write (v : Note) (bits : Nat → Bool) : Nat → Bool :=
  storeBe bits 16 8 v.1

/-- `Bank` (voice.rs): a 7-bit value in the 8-bit range 16..=23. -/
def Bank := { n : Nat // n < 2 ^ 7 }

/-- `TryFrom<u8>` for `Bank`. -/
def Bank.tryFrom (n : Nat) : Except Error Bank :=
  if h : n < 2 ^ 7 then .ok ⟨n, h⟩ else .error (.overflow n 7)

/-- Field read for `Bank` (range `16..=23`). -/
def Bank.tryRead (bits : Nat → Bool) : Except Error Bank :=
  Bank.tryFrom (loadBe bits 16 8)

/-- Field write for `Bank` (range `16..=23`). -/
def Bank.write (v : Bank) (bits : Nat → Bool) : Nat → Bool :=
  storeBe bits 16 8 v.1

/-- `Controller` (voice.rs): a 7-bit value in the 8-bit range 24..=31. -/
def Controller := { n : Nat // n < 2 ^ 7 }

/-- `TryFrom<u8>` for `Controller`. -/
def Controller.tryFrom (n : Nat) : Except Error Controller :=
  if h : n < 2 ^ 7 then .ok ⟨n, h⟩ else .error (.overflow n 7)

/-- Field read for `Controller` (range `24..=31`). -/
def Controller.tryRead (bits : Nat → Bool) : Except Error Controller :=
  Controller.tryFrom (loadBe bits 24 8)

/-- Field write for `Controller` (range `24..=31`). -/
def Controller.write (v : Controller) (bits : Nat → Bool) : Nat → Bool :=
  storeBe bits 24 8 v.1

/-- `PerNoteController` (voice.rs): a primitive `u8` field at the 8-bit
range 24..=31; `TryFrom<u8>` is total. -/
def PerNoteController := { n : Nat // n < 2 ^ 8 }

/-- Field read for `PerNoteController` (range `24..=31`; the total
`TryFrom<u8>` wraps the loaded `u8`). -/
def PerNoteController.tryRead (bits : Nat → Bool) : Except Error PerNoteController :=
  .ok ⟨loadBe bits 24 8, loadBeBound bits 24 8⟩

/-- Field write for `PerNoteController` (range `24..=31`). -/
def PerNoteController.write (v : PerNoteController) (bits : Nat → Bool) : Nat → Bool :=
  storeBe bits 24 8 v.1

/-- `Velocity` (voice.rs): a primitive `u16` field at the 16-bit range
32..=47; `TryFrom<u16>` is total. -/
def Velocity := { n : Nat // n < 2 ^ 16 }

/-- Field read for `Velocity` (range `32..=47`). -/
def Velocity.tryRead (bits : Nat → Bool) : Except Error Velocity :=
  .ok ⟨loadBe bits 32 16, loadBeBound bits 32 16⟩

/-- Field write for `Velocity` (range `32..=47`). -/
def Velocity.write (v : Velocity) (bits : Nat → Bool) : Nat → Bool :=
  storeBe bits 32 16 v.1

/-- `Data` (voice.rs): a primitive `u32` field at the 32-bit range
32..=63; `TryFrom<u32>` is total. -/
def Data := { n : Nat // n < 2 ^ 32 }

/-- Field read for `Data` (range `32..=63`). -/
def Data.tryRead (bits : Nat → Bool) : Except Error Data :=
  .ok ⟨loadBe bits 32 32, loadBeBound bits 32 32⟩

/-- Field write for `Data` (range `32..=63`). -/
def Data.write (v : Data) (bits : Nat → Bool) : Nat → Bool :=
  storeBe bits 32 32 v.1

/-- `Manufacturer` (voice.rs): a primitive `u16` field at the 16-bit
range 48..=63. -/
def Manufacturer := { n : Nat // n < 2 ^ 16 }

/-- Field read for `Manufacturer` (range `48..=63`). -/
def Manufacturer.tryRead (bits : Nat → Bool) : Except Error Manufacturer :=
  .ok ⟨loadBe bits 48 16, loadBeBound bits 48 16⟩

/-- Field write for `Manufacturer` (range `48..=63`). -/
def Manufacturer.write (v : Manufacturer) (bits : Nat → Bool) : Nat → Bool :=
  storeBe bits 48 16 v.1

/-- `Profile` (voice.rs): a primitive `u16` field at the 16-bit range
48..=63. -/
def Profile := { n : Nat // n < 2 ^ 16 }

/-- Field read for `Profile` (range `48..=63`). -/
def Profile.tryRead (bits : Nat → Bool) : Except Error Profile :=
  .ok ⟨loadBe bits 48 16, loadBeBound bits 48 16⟩

/-- Field write for `Profile` (range `48..=63`). -/
def Profile.write (v : Profile) (bits : Nat → Bool) : Nat → Bool :=
  storeBe bits 48 16 v.1

/-- `Pitch` (voice.rs): a 7-bit value (`UInt<u8, 7>`) at the 7-bit range
48..=54. -/
def Pitch := { n : Nat // n < 2 ^ 7 }

/-- `TryFrom<u8>` for `Pitch`. -/
def Pitch.tryFrom (n : Nat) : Except Error Pitch :=
  if h : n < 2 ^ 7 then .ok ⟨n, h⟩ else .error (.overflow n 7)

/-- Field read for `Pitch` (range `48..=54`). -/
def Pitch.tryRead (bits : Nat → Bool) : Except Error Pitch :=
  Pitch.tryFrom (loadBe bits 48 7)

/-- Field write for `Pitch` (range `48..=54`). -/
def Pitch.write (v : Pitch) (bits : Nat → Bool) : Nat → Bool :=
  storeBe bits 48 7 v.1

/-- `Fractional` (voice.rs): a 9-bit value (`UInt<u16, 9>`) at the 9-bit
range 55..=63. -/
def Fractional := { n : Nat // n < 2 ^ 9 }

/-- `TryFrom<u16>` for `Fractional`: fails with
`Error::overflow(value, 9)` at 512 and above. -/
def Fractional.tryFrom (n : Nat) : Except Error Fractional :=
  if h : n < 2 ^ 9 then .ok ⟨n, h⟩ else .error (.overflow n 9)

/-- Field read for `Fractional` (range `55..=63`). -/
def Fractional.tryRead (bits : Nat → Bool) : Except Error Fractional :=
  Fractional.tryFrom (loadBe bits 55 9)

/-- Field write for `Fractional` (range `55..=63`). -/
def Fractional.write (v : Fractional) (bits : Nat → Bool) : Nat → Bool :=
  storeBe bits 55 9 v.1

/-- `AttributeType` (voice.rs): the 8-bit attribute-type discriminant at
bits 24..=31. -/
inductive AttributeType where
  | None
  | Manufacturer
  | Profile
  | Pitch
deriving DecidableEq, Repr

/-- `Into<u8>` for `AttributeType`. -/
def AttributeType.toNat : AttributeType → Nat
  | .None => 0x0
  | .Manufacturer => 0x1
  | .Profile => 0x2
  | .Pitch => 0x3

/-- `TryFrom<u8>` for `AttributeType`. -/
def AttributeType.tryFrom (n : Nat) : Except Error AttributeType :=
  match n with
  | 0x0 => .ok .None
  | 0x1 => .ok .Manufacturer
  | 0x2 => .ok .Profile
  | 0x3 => .ok .Pitch
  | _ => .error (.conversion n)

/-- Field read for `AttributeType` (range `24..=31`). -/
def AttributeType.tryRead (bits : Nat → Bool) : Except Error AttributeType :=
  AttributeType.tryFrom (loadBe bits 24 8)

/-- Field write for `AttributeType` (range `24..=31`). -/
def AttributeType.write (v : AttributeType) (bits : Nat → Bool) : Nat → Bool :=
  storeBe bits 24 8 v.toNat

/-- `Attribute` (voice.rs): the composite note-attribute value, a
discriminant (`AttributeType`) plus a variant-dependent payload. -/
inductive Attribute where
  | none
  | manufacturer (m : Manufacturer)
  | profile (p : Profile)
  | pitch (p : Pitch) (f : Fractional)

/-- `TryReadFromPacket` for `Attribute`: read the discriminant first,
then the payload sub-fields of the selected variant. -/
def Attribute.tryRead (bits : Nat → Bool) : Except Error Attribute := do
  match ← AttributeType.tryRead bits with
  | .None => return .none
  | .Manufacturer => return .manufacturer (← Manufacturer.tryRead bits)
  | .Profile => return .profile (← Profile.tryRead bits)
  | .Pitch => return .pitch (← Pitch.tryRead bits) (← Fractional.tryRead bits)

/-- `WriteToPacket` for `Attribute`: write the discriminant, then the
payload sub-fields in the same fixed order. -/
def Attribute.write (a : Attribute) (bits : Nat → Bool) : Nat → Bool :=
  match a with
  | .none => AttributeType.write .None bits
  | .manufacturer m => Manufacturer.write m (AttributeType.write .Manufacturer bits)
  | .profile p => Profile.write p (AttributeType.write .Profile bits)
  | .pitch p f => Fractional.write f (Pitch.write p (AttributeType.write .Pitch bits))

end Midi2.Voice

-- ---------------------------------------------------------------------------
-- System field value types (message/system.rs)
-- ---------------------------------------------------------------------------

namespace Midi2.System

open Midi2

/-- `Status` (system.rs): the 8-bit System status field at bits 8..=15,
an enumeration over the ten defined status codes (0xf1, 0xf2, 0xf3,
0xf6, 0xf8, 0xfa, 0xfb, 0xfc, 0xfe, 0xff). -/
inductive Status where
  | MIDITimeCode
  | SongPositionPointer
  | SongSelect
  | TuneRequest
  | TimingClock
  | Start
  | Continue
  | Stop
  | ActiveSensing
  | Reset
deriving DecidableEq, Repr

/-- `Into<u8>` for `Status`. -/
def Status.toNat : Status → Nat
  | .MIDITimeCode => 0xf1
  | .SongPositionPointer => 0xf2
  | .SongSelect => 0xf3
  | .TuneRequest => 0xf6
  | .TimingClock => 0xf8
  | .Start => 0xfa
  | .Continue => 0xfb
  | .Stop => 0xfc
  | .ActiveSensing => 0xfe
  | .Reset => 0xff

/-- `TryFrom<u8>` for `Status` (`Error::conversion` on any undefined
status code). -/
def Status.tryFrom (n : Nat) : Except Error Status :=
  match n with
  | 0xf1 => .ok .MIDITimeCode
  | 0xf2 => .ok .SongPositionPointer
  | 0xf3 => .ok .SongSelect
  | 0xf6 => .ok .TuneRequest
  | 0xf8 => .ok .TimingClock
  | 0xfa => .ok .Start
  | 0xfb => .ok .Continue
  | 0xfc => .ok .Stop
  | 0xfe => .ok .ActiveSensing
  | 0xff => .ok .Reset
  | _ => .error (.conversion n)

/-- Field read for `Status` (range `8..=15`). -/
def Status.tryRead (bits : Nat → Bool) : Except Error Status :=
  Status.tryFrom (loadBe bits 8 8)

/-- Field write for `Status` (range `8..=15`). -/
def Status.write (v : Status) (bits : Nat → Bool) : Nat → Bool :=
  storeBe bits 8 8 v.toNat

end Midi2.System

-- ---------------------------------------------------------------------------
-- System Common field value types (message/system/common.rs)
-- ---------------------------------------------------------------------------

namespace Midi2.Common

open Midi2

/-- `Data` (common.rs): a 4-bit value (`UInt<u8, 4>`) at the 4-bit range
20..=23 (the timecode data nibble). -/
def Data := { n : Nat // n < 2 ^ 4 }

/-- `TryFrom<u8>` for `Data`. -/
def Data.tryFrom (n : Nat) : Except Error Data :=
  if h : n < 2 ^ 4 then .ok ⟨n, h⟩ else .error (.overflow n 4)

/-- Field read for `Data` (range `20..=23`). -/
def Data.tryRead (bits : Nat → Bool) : Except Error Data :=
  Data.tryFrom (loadBe bits 20 4)

/-- Field write for `Data` (range `20..=23`). -/
def Data.write (v : Data) (bits : Nat → Bool) : Nat → Bool :=
  storeBe bits 20 4 v.1

/-- `Significance` (common.rs): least or most significant nibble. -/
inductive Significance where
  | Least
  | Most
deriving DecidableEq, Repr

/-- `Into<u8>` for `Significance`. -/
def Significance.toNat : Significance → Nat
  | .Least => 0
  | .Most => 1

/-- `Type` (common.rs), renamed `TcType` here because `Type` is a Lean
keyword: the 3-bit timecode quarter-frame type field at bits 17..=19. -/
inductive TcType where
  | Frames (s : Significance)
  | Seconds (s : Significance)
  | Minutes (s : Significance)
  | Hours (s : Significance)
deriving DecidableEq, Repr

/-- `From<Type> for u8` (common.rs). -/
def TcType.toNat : TcType → Nat
  | .Frames s => s.toNat
  | .Seconds s => 2 + s.toNat
  | .Minutes s => 4 + s.toNat
  | .Hours s => 6 + s.toNat

/-- `TryFrom<u8> for Type` (common.rs): codes 0 through 7 each map to a
variant; anything else is a `Conversion` error. -/
def TcType.tryFrom (n : Nat) : Except Error TcType :=
  match n with
  | 0 => .ok (.Frames .Least)
  | 1 => .ok (.Frames .Most)
  | 2 => .ok (.Seconds .Least)
  | 3 => .ok (.Seconds .Most)
  | 4 => .ok (.Minutes .Least)
  | 5 => .ok (.Minutes .Most)
  | 6 => .ok (.Hours .Least)
  | 7 => .ok (.Hours .Most)
  | _ => .error (.conversion n)

/-- Field read for `Type` (range `17..=19`, via
`impl_field_trait_field!(Type, u8, 17..=19)`). -/
def TcType.tryRead (bits : Nat → Bool) : Except Error TcType :=
  TcType.tryFrom (loadBe bits 17 3)

/-- Field write for `Type` (range `17..=19`). -/
def TcType.write (v : TcType) (bits : Nat → Bool) : Nat → Bool :=
  storeBe bits 17 3 v.toNat

/-- `QuarterFrame` (common.rs): the composite timecode quarter-frame
value, `QuarterFrame(Data, Type)`. -/
structure QuarterFrame where
  data : Data
  ty : TcType

/-- `TryReadFromPacket` for `QuarterFrame`: read the `Data` sub-field,
then the `Type` sub-field. -/
def QuarterFrame.tryRead (bits : Nat → Bool) : Except Error QuarterFrame := do
  return ⟨← Data.tryRead bits, ← TcType.tryRead bits⟩

/-- `WriteToPacket` for `QuarterFrame`: write the `Data` sub-field, then
the `Type` sub-field. -/
def QuarterFrame.write (qf : QuarterFrame) (bits : Nat → Bool) : Nat → Bool :=
  TcType.write qf.ty (Data.write qf.data bits)

end Midi2.Common

-- ---------------------------------------------------------------------------
-- System messages (message/system.rs, message/system/real_time.rs,
-- message/system/common.rs)
-- ---------------------------------------------------------------------------

namespace Midi2.System

open Midi2

/-- `system::impl_message!` `try_init_internal`: size-check the buffer
(`Self::try_from(packet)?`, which delegates to the generated `try_new`),
`reset()` it to all zeroes, then set Message Type = System, the default
Group, and the kind's fixed `STATUS`. -/
def tryInitInternal (s : Status) (len : Nat) (bits : Nat → Bool) : Res (Nat → Bool) :=
  (tryNewBits 1 len).map fun _ =>
    Status.write s (Group.write Group.zero (MessageType.write .System (resetBits bits)))

end Midi2.System

namespace Midi2.RealTime

open Midi2 Midi2.System

/-- `TimingClock::try_init` (real_time.rs): `try_init_internal` with
`Status::TimingClock`. -/
def TimingClock.tryInit (len : Nat) (bits : Nat → Bool) : Res (Nat → Bool) :=
  tryInitInternal .TimingClock len bits

/-- `Start::try_init` (real_time.rs). -/
def Start.tryInit (len : Nat) (bits : Nat → Bool) : Res (Nat → Bool) :=
  tryInitInternal .Start len bits

/-- `Continue::try_init` (real_time.rs). -/
def Continue.tryInit (len : Nat) (bits : Nat → Bool) : Res (Nat → Bool) :=
  tryInitInternal .Continue len bits

/-- `Stop::try_init` (real_time.rs). -/
def Stop.tryInit (len : Nat) (bits : Nat → Bool) : Res (Nat → Bool) :=
  tryInitInternal .Stop len bits

/-- `ActiveSensing::try_init` (real_time.rs). -/
def ActiveSensing.tryInit (len : Nat) (bits : Nat → Bool) : Res (Nat → Bool) :=
  tryInitInternal .ActiveSensing len bits

/-- `Reset::try_init` (real_time.rs). -/
def Reset.tryInit (len : Nat) (bits : Nat → Bool) : Res (Nat → Bool) :=
  tryInitInternal .Reset len bits

/-- The `RealTime` enumeration variants (real_time.rs). -/
inductive Msg where
  | timingClock
  | start
  | continued
  | stop
  | activeSensing
  | reset
deriving DecidableEq, Repr

/-- Modelled from the spec: `RealTime::try_new` is absent from src
(real_time.rs only has it as a commented-out sketch), yet
`System::try_new` calls it.  It is reconstructed here following the
`system::impl_enumeration!` macro of system.rs (the generator used for
the sibling `Common` enumeration) instantiated at the six Real Time
messages: read the Status discriminant, dispatch on the exact status to
the concrete kind (each of which re-checks the buffer size), with the
macro's wildcard `unreachable!` arm for the remaining statuses. -/
def tryNew (len : Nat) (bits : Nat → Bool) : Res Msg :=
  match Status.tryRead bits with
  | .error e => .err e
  | .ok .TimingClock => (tryNewBits 1 len).map fun _ => .timingClock
  | .ok .Start => (tryNewBits 1 len).map fun _ => .start
  | .ok .Continue => (tryNewBits 1 len).map fun _ => .continued
  | .ok .Stop => (tryNewBits 1 len).map fun _ => .stop
  | .ok .ActiveSensing => (tryNewBits 1 len).map fun _ => .activeSensing
  | .ok .Reset => (tryNewBits 1 len).map fun _ => .reset
  | .ok _ => .panicked

end Midi2.RealTime

namespace Midi2.Common

open Midi2 Midi2.System

/-- `MIDITimeCode::try_init` (common.rs): `try_init_internal` with
`Status::MIDITimeCode`, then `set_quarter_frame(quarter_frame)`. -/
def MIDITimeCode.tryInit (qf : QuarterFrame) (len : Nat) (bits : Nat → Bool) :
    Res (Nat → Bool) :=
  (tryInitInternal .MIDITimeCode len bits).map (QuarterFrame.write qf)

/-- The `Common` enumeration variants (common.rs): only `MIDITimeCode`
is listed in `system::impl_enumeration!`. -/
inductive Msg where
  | midiTimeCode
deriving DecidableEq, Repr

/-- `Common::try_new`, generated by `system::impl_enumeration!`
(system.rs) instantiated at `[MIDITimeCode,]` (common.rs): read the
Status discriminant; `Status::MIDITimeCode` dispatches to
`MIDITimeCode::try_new` (a size check); every other defined status falls
into the macro's wildcard `unreachable!` arm. -/
def tryNew (len : Nat) (bits : Nat → Bool) : Res Msg :=
  match Status.tryRead bits with
  | .error e => .err e
  | .ok .MIDITimeCode => (tryNewBits 1 len).map fun _ => .midiTimeCode
  | .ok _ => .panicked

end Midi2.Common

namespace Midi2.System

open Midi2

/-- The `System` enumeration variants (system.rs). -/
inductive Msg where
  | common (c : Common.Msg)
  | realTime (r : RealTime.Msg)
deriving DecidableEq, Repr

/-- `System::try_new` (system.rs): read the Status discriminant; the
four Common statuses dispatch to `Common::try_new`, the six Real Time
statuses to `RealTime::try_new`; a status read failure propagates. -/
def tryNew (len : Nat) (bits : Nat → Bool) : Res Msg :=
  match Status.tryRead bits with
  | .error e => .err e
  | .ok .MIDITimeCode | .ok .SongPositionPointer | .ok .SongSelect | .ok .TuneRequest =>
      (Common.tryNew len bits).map .common
  | .ok .TimingClock | .ok .Start | .ok .Continue | .ok .Stop
  | .ok .ActiveSensing | .ok .Reset =>
      (RealTime.tryNew len bits).map .realTime

end Midi2.System

-- ---------------------------------------------------------------------------
-- Voice messages (message/voice.rs)
-- ---------------------------------------------------------------------------

namespace Midi2.Voice

open Midi2

/-- `voice::impl_message!` `try_init_internal`: size-check the 2-word
buffer, `reset()` it, then set Message Type = Voice, the default Group,
the kind's fixed `OPCODE`, and the default Channel. -/
def tryInitInternal (op : Opcode) (len : Nat) (bits : Nat → Bool) : Res (Nat → Bool) :=
  (tryNewBits 2 len).map fun _ =>
    Channel.write .C1 (Opcode.write op (Group.write Group.zero
      (MessageType.write .Voice (resetBits bits))))

/-- `RegisteredPerNoteController::try_init` (voice.rs). -/
def RegisteredPerNoteController.tryInit (note : Note) (pnc : PerNoteController)
    (len : Nat) (bits : Nat → Bool) : Res (Nat → Bool) :=
  (tryInitInternal .RegisteredPerNoteController len bits).map fun b =>
    PerNoteController.write pnc (Note.write note b)

/-- `AssignablePerNoteController::try_init` (voice.rs). -/
def AssignablePerNoteController.tryInit (note : Note) (pnc : PerNoteController)
    (len : Nat) (bits : Nat → Bool) : Res (Nat → Bool) :=
  (tryInitInternal .AssignablePerNoteController len bits).map fun b =>
    PerNoteController.write pnc (Note.write note b)

/-- `RegisteredController::try_init` (voice.rs). -/
def RegisteredController.tryInit (bank : Bank) (controller : Controller)
    (len : Nat) (bits : Nat → Bool) : Res (Nat → Bool) :=
  (tryInitInternal .RegisteredController len bits).map fun b =>
    Controller.write controller (Bank.write bank b)

/-- `AssignableController::try_init` (voice.rs). -/
def AssignableController.tryInit (bank : Bank) (controller : Controller)
    (len : Nat) (bits : Nat → Bool) : Res (Nat → Bool) :=
  (tryInitInternal .AssignableController len bits).map fun b =>
    Controller.write controller (Bank.write bank b)

/-- `RelativeRegisteredController::try_init` (voice.rs). -/
def RelativeRegisteredController.tryInit (bank : Bank) (controller : Controller)
    (len : Nat) (bits : Nat → Bool) : Res (Nat → Bool) :=
  (tryInitInternal .RelativeRegisteredController len bits).map fun b =>
    Controller.write controller (Bank.write bank b)

/-- `RelativeAssignableController::try_init` (voice.rs). -/
def RelativeAssignableController.tryInit (bank : Bank) (controller : Controller)
    (len : Nat) (bits : Nat → Bool) : Res (Nat → Bool) :=
  (tryInitInternal .RelativeAssignableController len bits).map fun b =>
    Controller.write controller (Bank.write bank b)

/-- `PerNotePitchBend::try_init` (voice.rs). -/
def PerNotePitchBend.tryInit (note : Note) (len : Nat) (bits : Nat → Bool) :
    Res (Nat → Bool) :=
  (tryInitInternal .PerNotePitchBend len bits).map fun b => Note.write note b

/-- `NoteOff::try_init` (voice.rs). -/
def NoteOff.tryInit (note : Note) (velocity : Velocity) (len : Nat)
    (bits : Nat → Bool) : Res (Nat → Bool) :=
  (tryInitInternal .NoteOff len bits).map fun b =>
    Velocity.write velocity (Note.write note b)

/-- `NoteOn::try_init` (voice.rs). -/
def NoteOn.tryInit (note : Note) (velocity : Velocity) (len : Nat)
    (bits : Nat → Bool) : Res (Nat → Bool) :=
  (tryInitInternal .NoteOn len bits).map fun b =>
    Velocity.write velocity (Note.write note b)

/-- The `Voice` enumeration variants (voice.rs): the nine implemented
kinds; PolyPressure through PerNoteManagement are commented out of the
dispatch list. -/
inductive Msg where
  | registeredPerNoteController
  | assignablePerNoteController
  | registeredController
  | assignableController
  | relativeRegisteredController
  | relativeAssignableController
  | perNotePitchBend
  | noteOff
  | noteOn
deriving DecidableEq, Repr

/-- `Voice::try_new`, generated by `voice::impl_enumeration!` (voice.rs):
read the Opcode discriminant; each of the nine listed opcodes dispatches
to the corresponding kind's `try_new` (a size check); the six defined
but unlisted opcodes (PolyPressure through PerNoteManagement) fall into
the macro's wildcard `unreachable!` arm. -/
def tryNew (len : Nat) (bits : Nat → Bool) : Res Msg :=
  match Opcode.tryRead bits with
  | .error e => .err e
  | .ok .RegisteredPerNoteController =>
      (tryNewBits 2 len).map fun _ => .registeredPerNoteController
  | .ok .AssignablePerNoteController =>
      (tryNewBits 2 len).map fun _ => .assignablePerNoteController
  | .ok .RegisteredController => (tryNewBits 2 len).map fun _ => .registeredController
  | .ok .AssignableController => (tryNewBits 2 len).map fun _ => .assignableController
  | .ok .RelativeRegisteredController =>
      (tryNewBits 2 len).map fun _ => .relativeRegisteredController
  | .ok .RelativeAssignableController =>
      (tryNewBits 2 len).map fun _ => .relativeAssignableController
  | .ok .PerNotePitchBend => (tryNewBits 2 len).map fun _ => .perNotePitchBend
  | .ok .NoteOff => (tryNewBits 2 len).map fun _ => .noteOff
  | .ok .NoteOn => (tryNewBits 2 len).map fun _ => .noteOn
  | .ok _ => .panicked

end Midi2.Voice

-- ---------------------------------------------------------------------------
-- A uniform index over the sixteen implemented message kinds, their
-- fixed word counts, init-argument types, and `try_init` functions.
-- ---------------------------------------------------------------------------

namespace Midi2

/-- The sixteen message kinds of the crate that expose `try_init`. -/
inductive Kind where
  | MIDITimeCode
  | TimingClock
  | Start
  | Continue
  | Stop
  | ActiveSensing
  | Reset
  | RegisteredPerNoteController
  | AssignablePerNoteController
  | RegisteredController
  | AssignableController
  | RelativeRegisteredController
  | RelativeAssignableController
  | PerNotePitchBend
  | NoteOff
  | NoteOn
deriving DecidableEq, Repr

/-- The fixed word count of each message kind (System = 1, Voice = 2). -/
def Kind.words : Kind → Nat
  | .MIDITimeCode | .TimingClock | .Start | .Continue | .Stop
  | .ActiveSensing | .Reset => 1
  | _ => 2

/-- The mandatory constructor-argument types of each kind's `try_init`. -/
def Kind.Args : Kind → Type
  | .MIDITimeCode => Common.QuarterFrame
  | .TimingClock | .Start | .Continue | .Stop | .ActiveSensing | .Reset => Unit
  | .RegisteredPerNoteController | .AssignablePerNoteController =>
      Voice.Note × Voice.PerNoteController
  | .RegisteredController | .AssignableController
  | .RelativeRegisteredController | .RelativeAssignableController =>
      Voice.Bank × Voice.Controller
  | .PerNotePitchBend => Voice.Note
  | .NoteOff | .NoteOn => Voice.Note × Voice.Velocity

/-- Dispatch to the kind's `try_init` function. -/
def tryInitK : (k : Kind) → Kind.Args k → Nat → (Nat → Bool) → Res (Nat → Bool)
  | .MIDITimeCode, qf, len, bits => Common.MIDITimeCode.tryInit qf len bits
  | .TimingClock, _, len, bits => RealTime.TimingClock.tryInit len bits
  | .Start, _, len, bits => RealTime.Start.tryInit len bits
  | .Continue, _, len, bits => RealTime.Continue.tryInit len bits
  | .Stop, _, len, bits => RealTime.Stop.tryInit len bits
  | .ActiveSensing, _, len, bits => RealTime.ActiveSensing.tryInit len bits
  | .Reset, _, len, bits => RealTime.Reset.tryInit len bits
  | .RegisteredPerNoteController, a, len, bits =>
      Voice.RegisteredPerNoteController.tryInit a.1 a.2 len bits
  | .AssignablePerNoteController, a, len, bits =>
      Voice.AssignablePerNoteController.tryInit a.1 a.2 len bits
  | .RegisteredController, a, len, bits =>
      Voice.RegisteredController.tryInit a.1 a.2 len bits
  | .AssignableController, a, len, bits =>
      Voice.AssignableController.tryInit a.1 a.2 len bits
  | .RelativeRegisteredController, a, len, bits =>
      Voice.RelativeRegisteredController.tryInit a.1 a.2 len bits
  | .RelativeAssignableController, a, len, bits =>
      Voice.RelativeAssignableController.tryInit a.1 a.2 len bits
  | .PerNotePitchBend, note, len, bits => Voice.PerNotePitchBend.tryInit note len bits
  | .NoteOff, a, len, bits => Voice.NoteOff.tryInit a.1 a.2 len bits
  | .NoteOn, a, len, bits => Voice.NoteOn.tryInit a.1 a.2 len bits

end Midi2

-- ---------------------------------------------------------------------------
-- Concrete scenario under test (spec section 8, Scenario A)
-- ---------------------------------------------------------------------------

namespace Midi2

/-- The Scenario A packet construction: `NoteOn::try_init` on a fresh
2-word (64-bit) zero buffer with note 64 and velocity 32745, followed by
`set_group(Group(3))` and `set_channel` with channel code 5 (`C6`). -/
def noteOnScenario : Res (Nat → Bool) :=
  (Voice.NoteOn.tryInit ⟨64, by norm_num⟩ ⟨32745, by norm_num⟩ 64 zeroBits).map
    fun b => Voice.Channel.write .C6 (Group.write ⟨3, by norm_num⟩ b)

end Midi2

-- ---------------------------------------------------------------------------
-- Bit-level lemmas
-- ---------------------------------------------------------------------------

namespace Midi2

theorem loadBe_congr {b1 b2 : Nat → Bool} (lo w : Nat)
    (h : ∀ i, lo ≤ i → i < lo + w → b1 i = b2 i) :
    loadBe b1 lo w = loadBe b2 lo w := by
  induction w with
  | zero => rfl
  | succ w ih =>
    simp only [loadBe]
    rw [ih (fun i h1 h2 => h i h1 (by omega)), h (lo + w) (by omega) (by omega)]

theorem storeBe_out (bits : Nat → Bool) (lo w v i : Nat)
    (h : i < lo ∨ lo + w ≤ i) :
    storeBe bits lo w v i = bits i := by
  simp only [storeBe]
  rw [if_neg]
  omega

theorem loadBe_storeBe (bits : Nat → Bool) (lo w v : Nat) :
    loadBe (storeBe bits lo w v) lo w = v % 2 ^ w := by
  induction w generalizing v with
  | zero => simp [loadBe, Nat.mod_one]
  | succ w ih =>
    simp only [loadBe]
    have h1 : loadBe (storeBe bits lo (w + 1) v) lo w
        = loadBe (storeBe bits lo w (v / 2)) lo w := by
      apply loadBe_congr
      intro i hlo hhi
      simp only [storeBe]
      rw [if_pos ⟨hlo, by omega⟩, if_pos ⟨hlo, by omega⟩]
      have he : lo + (w + 1) - 1 - i = (lo + w - 1 - i) + 1 := by omega
      rw [he, ← Nat.testBit_div_two]
    have h2 : storeBe bits lo (w + 1) v (lo + w) = v.testBit 0 := by
      simp only [storeBe]
      rw [if_pos ⟨by omega, by omega⟩]
      congr 1
      omega
    rw [h1, ih, h2]
    have h3 : (if v.testBit 0 then 1 else 0) = v % 2 := by
      rcases Nat.even_or_odd v with he | ho
      · simp [Nat.testBit_zero, Nat.even_iff.mp he]
      · simp [Nat.testBit_zero, Nat.odd_iff.mp ho]
    rw [h3]
    have h4 : 2 ^ (w + 1) = 2 * 2 ^ w := by ring
    rw [h4, Nat.mod_mul]
    omega

theorem loadBe_storeBe_disjoint (bits : Nat → Bool) (lo w lo2 w2 v : Nat)
    (h : lo + w ≤ lo2 ∨ lo2 + w2 ≤ lo) :
    loadBe (storeBe bits lo2 w2 v) lo w = loadBe bits lo w :=
  loadBe_congr lo w (fun i h1 h2 => storeBe_out bits lo2 w2 v i (by omega))

end Midi2

-- ---------------------------------------------------------------------------
-- Per-type round-trip lemmas (decode after encode)
-- ---------------------------------------------------------------------------

namespace Midi2

theorem rt_messageType (bits : Nat → Bool) (v : MessageType) :
    MessageType.tryRead (MessageType.write v bits) = .ok v := by
  simp only [MessageType.tryRead, MessageType.write, loadBe_storeBe]
  cases v <;> rfl

theorem rt_group (bits : Nat → Bool) (v : Group) :
    Group.tryRead (Group.write v bits) = .ok v := by
  unfold Group.tryRead Group.write
  rw [loadBe_storeBe, Nat.mod_eq_of_lt v.2]
  unfold Group.tryFrom
  rw [dif_pos v.2]
  rfl

end Midi2

namespace Midi2.Voice

open Midi2

theorem rt_opcode (bits : Nat → Bool) (v : Opcode) :
    Opcode.tryRead (Opcode.write v bits) = .ok v := by
  simp only [Opcode.tryRead, Opcode.write, loadBe_storeBe]
  cases v <;> rfl

theorem rt_channel (bits : Nat → Bool) (v : Channel) :
    Channel.tryRead (Channel.write v bits) = .ok v := by
  simp only [Channel.tryRead, Channel.write, loadBe_storeBe]
  cases v <;> rfl

theorem rt_note (bits : Nat → Bool) (v : Note) :
    Note.tryRead (Note.write v bits) = .ok v := by
  unfold Note.tryRead Note.write
  rw [loadBe_storeBe, Nat.mod_eq_of_lt (lt_trans v.2 (by norm_num))]
  unfold Note.tryFrom
  rw [dif_pos v.2]
  rfl

theorem rt_bank (bits : Nat → Bool) (v : Bank) :
    Bank.tryRead (Bank.write v bits) = .ok v := by
  unfold Bank.tryRead Bank.write
  rw [loadBe_storeBe, Nat.mod_eq_of_lt (lt_trans v.2 (by norm_num))]
  unfold Bank.tryFrom
  rw [dif_pos v.2]
  rfl

theorem rt_controller (bits : Nat → Bool) (v : Controller) :
    Controller.tryRead (Controller.write v bits) = .ok v := by
  unfold Controller.tryRead Controller.write
  rw [loadBe_storeBe, Nat.mod_eq_of_lt (lt_trans v.2 (by norm_num))]
  unfold Controller.tryFrom
  rw [dif_pos v.2]
  rfl

theorem rt_perNoteController (bits : Nat → Bool) (v : PerNoteController) :
    PerNoteController.tryRead (PerNoteController.write v bits) = .ok v := by
  unfold PerNoteController.tryRead PerNoteController.write
  exact congrArg Except.ok (Subtype.ext
    ((loadBe_storeBe bits 24 8 v.1).trans (Nat.mod_eq_of_lt v.2)))

theorem rt_velocity (bits : Nat → Bool) (v : Velocity) :
    Velocity.tryRead (Velocity.write v bits) = .ok v := by
  unfold Velocity.tryRead Velocity.write
  exact congrArg Except.ok (Subtype.ext
    ((loadBe_storeBe bits 32 16 v.1).trans (Nat.mod_eq_of_lt v.2)))

theorem rt_data (bits : Nat → Bool) (v : Data) :
    Data.tryRead (Data.write v bits) = .ok v := by
  unfold Data.tryRead Data.write
  exact congrArg Except.ok (Subtype.ext
    ((loadBe_storeBe bits 32 32 v.1).trans (Nat.mod_eq_of_lt v.2)))

theorem rt_manufacturer (bits : Nat → Bool) (v : Manufacturer) :
    Manufacturer.tryRead (Manufacturer.write v bits) = .ok v := by
  unfold Manufacturer.tryRead Manufacturer.write
  exact congrArg Except.ok (Subtype.ext
    ((loadBe_storeBe bits 48 16 v.1).trans (Nat.mod_eq_of_lt v.2)))

theorem rt_profile (bits : Nat → Bool) (v : Profile) :
    Profile.tryRead (Profile.write v bits) = .ok v := by
  unfold Profile.tryRead Profile.write
  exact congrArg Except.ok (Subtype.ext
    ((loadBe_storeBe bits 48 16 v.1).trans (Nat.mod_eq_of_lt v.2)))

theorem rt_pitch (bits : Nat → Bool) (v : Pitch) :
    Pitch.tryRead (Pitch.write v bits) = .ok v := by
  unfold Pitch.tryRead Pitch.write
  rw [loadBe_storeBe, Nat.mod_eq_of_lt v.2]
  unfold Pitch.tryFrom
  rw [dif_pos v.2]
  rfl

theorem rt_fractional (bits : Nat → Bool) (v : Fractional) :
    Fractional.tryRead (Fractional.write v bits) = .ok v := by
  unfold Fractional.tryRead Fractional.write
  rw [loadBe_storeBe, Nat.mod_eq_of_lt v.2]
  unfold Fractional.tryFrom
  rw [dif_pos v.2]
  rfl

theorem rt_attributeType (bits : Nat → Bool) (v : AttributeType) :
    AttributeType.tryRead (AttributeType.write v bits) = .ok v := by
  simp only [AttributeType.tryRead, AttributeType.write, loadBe_storeBe]
  cases v <;> rfl

theorem rt_attribute (bits : Nat → Bool) (a : Attribute) :
    Attribute.tryRead (Attribute.write a bits) = .ok a := by
  cases a with
  | none =>
    have h : AttributeType.tryRead (AttributeType.write .None bits) = .ok .None :=
      rt_attributeType bits .None
    simp only [Attribute.tryRead, Attribute.write, h]
    rfl
  | manufacturer m =>
    have h1 : AttributeType.tryRead
        (Manufacturer.write m (AttributeType.write .Manufacturer bits))
        = .ok .Manufacturer := by
      simp only [AttributeType.tryRead, Manufacturer.write]
      rw [loadBe_storeBe_disjoint _ _ _ _ _ _ (Or.inl (by norm_num))]
      exact rt_attributeType bits .Manufacturer
    have h2 := rt_manufacturer (AttributeType.write .Manufacturer bits) m
    simp only [Attribute.tryRead, Attribute.write, h1, h2]
    rfl
  | profile p =>
    have h1 : AttributeType.tryRead
        (Profile.write p (AttributeType.write .Profile bits))
        = .ok .Profile := by
      simp only [AttributeType.tryRead, Profile.write]
      rw [loadBe_storeBe_disjoint _ _ _ _ _ _ (Or.inl (by norm_num))]
      exact rt_attributeType bits .Profile
    have h2 := rt_profile (AttributeType.write .Profile bits) p
    simp only [Attribute.tryRead, Attribute.write, h1, h2]
    rfl
  | pitch p f =>
    have h1 : AttributeType.tryRead
        (Fractional.write f (Pitch.write p (AttributeType.write .Pitch bits)))
        = .ok .Pitch := by
      simp only [AttributeType.tryRead, Fractional.write, Pitch.write]
      rw [loadBe_storeBe_disjoint _ _ _ _ _ _ (Or.inl (by norm_num)),
        loadBe_storeBe_disjoint _ _ _ _ _ _ (Or.inl (by norm_num))]
      exact rt_attributeType bits .Pitch
    have h2 : Pitch.tryRead
        (Fractional.write f (Pitch.write p (AttributeType.write .Pitch bits)))
        = .ok p := by
      simp only [Pitch.tryRead, Fractional.write]
      rw [loadBe_storeBe_disjoint _ _ _ _ _ _ (Or.inl (by norm_num))]
      exact rt_pitch (AttributeType.write .Pitch bits) p
    have h3 := rt_fractional (Pitch.write p (AttributeType.write .Pitch bits)) f
    simp only [Attribute.tryRead, Attribute.write, h1, h2, h3]
    rfl

end Midi2.Voice

namespace Midi2.System

open Midi2

theorem rt_status (bits : Nat → Bool) (v : Status) :
    Status.tryRead (Status.write v bits) = .ok v := by
  simp only [Status.tryRead, Status.write, loadBe_storeBe]
  cases v <;> rfl

end Midi2.System

namespace Midi2.Common

open Midi2

theorem rt_commonData (bits : Nat → Bool) (v : Data) :
    Data.tryRead (Data.write v bits) = .ok v := by
  unfold Data.tryRead Data.write
  rw [loadBe_storeBe, Nat.mod_eq_of_lt v.2]
  unfold Data.tryFrom
  rw [dif_pos v.2]
  rfl

theorem rt_tcType (bits : Nat → Bool) (v : TcType) :
    TcType.tryRead (TcType.write v bits) = .ok v := by
  simp only [TcType.tryRead, TcType.write, loadBe_storeBe]
  rcases v with s | s | s | s <;> cases s <;> rfl

theorem rt_quarterFrame (bits : Nat → Bool) (qf : QuarterFrame) :
    QuarterFrame.tryRead (QuarterFrame.write qf bits) = .ok qf := by
  have hd : Data.tryRead (TcType.write qf.ty (Data.write qf.data bits))
      = .ok qf.data := by
    simp only [Data.tryRead, TcType.write]
    rw [loadBe_storeBe_disjoint _ _ _ _ _ _ (Or.inr (by norm_num))]
    exact rt_commonData bits qf.data
  have ht : TcType.tryRead (TcType.write qf.ty (Data.write qf.data bits))
      = .ok qf.ty :=
    rt_tcType (Data.write qf.data bits) qf.ty
  simp only [QuarterFrame.tryRead, QuarterFrame.write, hd, ht]
  rfl

end Midi2.Common

-- ---------------------------------------------------------------------------
-- Per-type frame lemmas (writes touch only the declared bit range)
-- ---------------------------------------------------------------------------

namespace Midi2.Voice

open Midi2

theorem fr_attribute (bits : Nat → Bool) (a : Attribute) (i : Nat)
    (h1 : i < 24 ∨ 32 ≤ i) (h2 : i < 48 ∨ 64 ≤ i) :
    Attribute.write a bits i = bits i := by
  cases a with
  | none => exact storeBe_out bits 24 8 _ i h1
  | manufacturer m =>
    exact (storeBe_out _ 48 16 _ i h2).trans (storeBe_out bits 24 8 _ i h1)
  | profile p =>
    exact (storeBe_out _ 48 16 _ i h2).trans (storeBe_out bits 24 8 _ i h1)
  | pitch p f =>
    exact (storeBe_out _ 55 9 _ i (by omega)).trans
      ((storeBe_out _ 48 7 _ i (by omega)).trans (storeBe_out bits 24 8 _ i h1))

end Midi2.Voice

namespace Midi2.Common

open Midi2

theorem fr_quarterFrame (bits : Nat → Bool) (qf : QuarterFrame) (i : Nat)
    (h : i < 17 ∨ 24 ≤ i) :
    QuarterFrame.write qf bits i = bits i :=
  (storeBe_out _ 17 3 _ i (by omega)).trans (storeBe_out bits 20 4 _ i (by omega))

end Midi2.Common

-- ---------------------------------------------------------------------------
-- Claim theorems
-- ---------------------------------------------------------------------------

namespace Midi2

/-- Claim C1 (code-bug evidence).  The claim states that for every
discriminant value in a family's accepted domain (every defined Opcode
for Voice, every defined Status for System), classify returns a concrete
kind and never an internal-only failure mode.  Evaluating the code: a
Voice packet with the defined opcode 0xa (PolyPressure) reaches the
`unreachable!` arm of `voice::impl_enumeration!` (panic), and a System
packet with the defined status 0xf2 (SongPositionPointer) reaches the
`unreachable!` arm of the generated `Common::try_new` (panic).  The
out-of-domain half of the claim does hold: status byte 0x00 yields
`Conversion(0x00)` and opcode 0x7 yields `Conversion(0x7)`. -/
theorem c1_classify_eval :
    Voice.tryNew 64 (bitsOfWords [0x40a00000, 0]) = .panicked
    ∧ System.tryNew 32 (bitsOfWords [0x10f20000]) = .panicked
    ∧ System.tryNew 32 (bitsOfWords [0x10000000]) = .err (.conversion 0)
    ∧ Voice.tryNew 64 (bitsOfWords [0x40700000, 0]) = .err (.conversion 7) := by
  decide

/-- Claim C2 (confirmed): for every field value type of the crate and
every validly constructed value `v`, writing `v` into a packet at the
type's declared bit range and reading that range back yields exactly
`v`, for any prior contents of the rest of the packet. -/
theorem c2_roundtrip :
    (∀ (bits : Nat → Bool) (v : MessageType),
      MessageType.tryRead (MessageType.write v bits) = .ok v)
    ∧ (∀ (bits : Nat → Bool) (v : Group),
      Group.tryRead (Group.write v bits) = .ok v)
    ∧ (∀ (bits : Nat → Bool) (v : Voice.Opcode),
      Voice.Opcode.tryRead (Voice.Opcode.write v bits) = .ok v)
    ∧ (∀ (bits : Nat → Bool) (v : Voice.Channel),
      Voice.Channel.tryRead (Voice.Channel.write v bits) = .ok v)
    ∧ (∀ (bits : Nat → Bool) (v : Voice.Note),
      Voice.Note.tryRead (Voice.Note.write v bits) = .ok v)
    ∧ (∀ (bits : Nat → Bool) (v : Voice.Bank),
      Voice.Bank.tryRead (Voice.Bank.write v bits) = .ok v)
    ∧ (∀ (bits : Nat → Bool) (v : Voice.Controller),
      Voice.Controller.tryRead (Voice.Controller.write v bits) = .ok v)
    ∧ (∀ (bits : Nat → Bool) (v : Voice.PerNoteController),
      Voice.PerNoteController.tryRead (Voice.PerNoteController.write v bits) = .ok v)
    ∧ (∀ (bits : Nat → Bool) (v : Voice.Velocity),
      Voice.Velocity.tryRead (Voice.Velocity.write v bits) = .ok v)
    ∧ (∀ (bits : Nat → Bool) (v : Voice.Data),
      Voice.Data.tryRead (Voice.Data.write v bits) = .ok v)
    ∧ (∀ (bits : Nat → Bool) (v : Voice.Manufacturer),
      Voice.Manufacturer.tryRead (Voice.Manufacturer.write v bits) = .ok v)
    ∧ (∀ (bits : Nat → Bool) (v : Voice.Profile),
      Voice.Profile.tryRead (Voice.Profile.write v bits) = .ok v)
    ∧ (∀ (bits : Nat → Bool) (v : Voice.Pitch),
      Voice.Pitch.tryRead (Voice.Pitch.write v bits) = .ok v)
    ∧ (∀ (bits : Nat → Bool) (v : Voice.Fractional),
      Voice.Fractional.tryRead (Voice.Fractional.write v bits) = .ok v)
    ∧ (∀ (bits : Nat → Bool) (v : Voice.AttributeType),
      Voice.AttributeType.tryRead (Voice.AttributeType.write v bits) = .ok v)
    ∧ (∀ (bits : Nat → Bool) (v : Voice.Attribute),
      Voice.Attribute.tryRead (Voice.Attribute.write v bits) = .ok v)
    ∧ (∀ (bits : Nat → Bool) (v : System.Status),
      System.Status.tryRead (System.Status.write v bits) = .ok v)
    ∧ (∀ (bits : Nat → Bool) (v : Common.Data),
      Common.Data.tryRead (Common.Data.write v bits) = .ok v)
    ∧ (∀ (bits : Nat → Bool) (v : Common.TcType),
      Common.TcType.tryRead (Common.TcType.write v bits) = .ok v)
    ∧ (∀ (bits : Nat → Bool) (v : Common.QuarterFrame),
      Common.QuarterFrame.tryRead (Common.QuarterFrame.write v bits) = .ok v) :=
  ⟨rt_messageType, rt_group, Voice.rt_opcode, Voice.rt_channel, Voice.rt_note,
    Voice.rt_bank, Voice.rt_controller, Voice.rt_perNoteController,
    Voice.rt_velocity, Voice.rt_data, Voice.rt_manufacturer, Voice.rt_profile,
    Voice.rt_pitch, Voice.rt_fractional, Voice.rt_attributeType,
    Voice.rt_attribute, System.rt_status, Common.rt_commonData,
    Common.rt_tcType, Common.rt_quarterFrame⟩

/-- Claim C3 (confirmed): for every field value type, writing a value
changes only the bits inside the type's declared bit range; every bit
outside that range keeps its previous value (in particular, bits of an
all-ones buffer outside the range stay 1).  For the two composite
values, the untouched region is the complement of the union of the
sub-field ranges. -/
theorem c3_write_frame :
    (∀ (bits : Nat → Bool) (v : MessageType) (i : Nat), i < 0 ∨ 4 ≤ i →
      MessageType.write v bits i = bits i)
    ∧ (∀ (bits : Nat → Bool) (v : Group) (i : Nat), i < 4 ∨ 8 ≤ i →
      Group.write v bits i = bits i)
    ∧ (∀ (bits : Nat → Bool) (v : Voice.Opcode) (i : Nat), i < 8 ∨ 12 ≤ i →
      Voice.Opcode.write v bits i = bits i)
    ∧ (∀ (bits : Nat → Bool) (v : Voice.Channel) (i : Nat), i < 12 ∨ 16 ≤ i →
      Voice.Channel.write v bits i = bits i)
    ∧ (∀ (bits : Nat → Bool) (v : Voice.Note) (i : Nat), i < 16 ∨ 24 ≤ i →
      Voice.Note.write v bits i = bits i)
    ∧ (∀ (bits : Nat → Bool) (v : Voice.Bank) (i : Nat), i < 16 ∨ 24 ≤ i →
      Voice.Bank.write v bits i = bits i)
    ∧ (∀ (bits : Nat → Bool) (v : Voice.Controller) (i : Nat), i < 24 ∨ 32 ≤ i →
      Voice.Controller.write v bits i = bits i)
    ∧ (∀ (bits : Nat → Bool) (v : Voice.PerNoteController) (i : Nat), i < 24 ∨ 32 ≤ i →
      Voice.PerNoteController.write v bits i = bits i)
    ∧ (∀ (bits : Nat → Bool) (v : Voice.Velocity) (i : Nat), i < 32 ∨ 48 ≤ i →
      Voice.Velocity.write v bits i = bits i)
    ∧ (∀ (bits : Nat → Bool) (v : Voice.Data) (i : Nat), i < 32 ∨ 64 ≤ i →
      Voice.Data.write v bits i = bits i)
    ∧ (∀ (bits : Nat → Bool) (v : Voice.Manufacturer) (i : Nat), i < 48 ∨ 64 ≤ i →
      Voice.Manufacturer.write v bits i = bits i)
    ∧ (∀ (bits : Nat → Bool) (v : Voice.Profile) (i : Nat), i < 48 ∨ 64 ≤ i →
      Voice.Profile.write v bits i = bits i)
    ∧ (∀ (bits : Nat → Bool) (v : Voice.Pitch) (i : Nat), i < 48 ∨ 55 ≤ i →
      Voice.Pitch.write v bits i = bits i)
    ∧ (∀ (bits : Nat → Bool) (v : Voice.Fractional) (i : Nat), i < 55 ∨ 64 ≤ i →
      Voice.Fractional.write v bits i = bits i)
    ∧ (∀ (bits : Nat → Bool) (v : Voice.AttributeType) (i : Nat), i < 24 ∨ 32 ≤ i →
      Voice.AttributeType.write v bits i = bits i)
    ∧ (∀ (bits : Nat → Bool) (v : Voice.Attribute) (i : Nat),
      (i < 24 ∨ 32 ≤ i) → (i < 48 ∨ 64 ≤ i) →
      Voice.Attribute.write v bits i = bits i)
    ∧ (∀ (bits : Nat → Bool) (v : System.Status) (i : Nat), i < 8 ∨ 16 ≤ i →
      System.Status.write v bits i = bits i)
    ∧ (∀ (bits : Nat → Bool) (v : Common.Data) (i : Nat), i < 20 ∨ 24 ≤ i →
      Common.Data.write v bits i = bits i)
    ∧ (∀ (bits : Nat → Bool) (v : Common.TcType) (i : Nat), i < 17 ∨ 20 ≤ i →
      Common.TcType.write v bits i = bits i)
    ∧ (∀ (bits : Nat → Bool) (v : Common.QuarterFrame) (i : Nat), i < 17 ∨ 24 ≤ i →
      Common.QuarterFrame.write v bits i = bits i) :=
  ⟨fun bits v i h => storeBe_out bits 0 4 v.toNat i h,
    fun bits v i h => storeBe_out bits 4 4 v.1 i h,
    fun bits v i h => storeBe_out bits 8 4 v.toNat i h,
    fun bits v i h => storeBe_out bits 12 4 v.toNat i h,
    fun bits v i h => storeBe_out bits 16 8 v.1 i h,
    fun bits v i h => storeBe_out bits 16 8 v.1 i h,
    fun bits v i h => storeBe_out bits 24 8 v.1 i h,
    fun bits v i h => storeBe_out bits 24 8 v.1 i h,
    fun bits v i h => storeBe_out bits 32 16 v.1 i h,
    fun bits v i h => storeBe_out bits 32 32 v.1 i h,
    fun bits v i h => storeBe_out bits 48 16 v.1 i h,
    fun bits v i h => storeBe_out bits 48 16 v.1 i h,
    fun bits v i h => storeBe_out bits 48 7 v.1 i h,
    fun bits v i h => storeBe_out bits 55 9 v.1 i h,
    fun bits v i h => storeBe_out bits 24 8 v.toNat i h,
    Voice.fr_attribute,
    fun bits v i h => storeBe_out bits 8 8 v.toNat i h,
    fun bits v i h => storeBe_out bits 20 4 v.1 i h,
    fun bits v i h => storeBe_out bits 17 3 v.toNat i h,
    Common.fr_quarterFrame⟩

/-- Witness for C3: writing Note 64 into an all-ones buffer leaves bit
15 (just before the note range 16..=23) equal to 1. -/
theorem c3_write_frame_witness :
    Voice.Note.write ⟨64, by norm_num⟩ (fun _ => true) 15 = true :=
  c3_write_frame.2.2.2.2.1 (fun _ => true) ⟨64, by norm_num⟩ 15 (Or.inl (by norm_num))

/-- Claim C4 counterexample: the Scenario A construction does not yield
the packet words [0x43854000, 0x7fe90000] claimed by the spec (whose
opcode nibble 0x8 contradicts its own annotation opcode=NoteOn(0x9)). -/
theorem c4_scenario_counterexample :
    ¬ (noteOnScenario.map (fun b => (wordAt b 0, wordAt b 1))
      = .ok (0x43854000, 0x7fe90000)) := by
  decide

/-- Claim C4 as amended: initializing a NoteOn message on a 2-word zero
buffer with note 64 and velocity 32745, then setting group 3 and channel
code 5, yields exactly the packet words [0x43954000, 0x7fe90000]
(message type 0x4, group 3, opcode 0x9, channel 5, note 64, velocity
32745). -/
theorem c4_scenario_amended :
    noteOnScenario.map (fun b => (wordAt b 0, wordAt b 1))
      = .ok (0x43954000, 0x7fe90000) := by
  decide

/-- Claim C5 (code-bug evidence).  The claim states every mis-sized
buffer is rejected with `Size(expected, actual)`.  That holds for
mismatched lengths below 256 bits, but on a 256-bit (8-word) buffer the
error construction `len.try_into::<u8>().unwrap()` panics instead of
returning the error, as evaluated here on the generated `try_new` size
check and on `TimingClock::try_init`. -/
theorem c5_size_eval :
    tryNewBits 1 (8 * 32) = .panicked
    ∧ RealTime.TimingClock.tryInit (8 * 32) zeroBits = .panicked
    ∧ tryNewBits 1 64 = .err (.size 32 64)
    ∧ tryNewBits 2 32 = .err (.size 64 32)
    ∧ tryNewBits 2 96 = .err (.size 64 96) := by
  refine ⟨by decide, ?_, by decide, by decide, by decide⟩
  rfl

/-- Claim C6 (confirmed): for every width-bounded field value type with
declared width `w` strictly below its backing integer width, every
backing-representable integer at or above `2 ^ w` is rejected by
`try_new`/`TryFrom` with `Overflow` carrying that integer and `w`. -/
theorem c6_overflow_rejection :
    (∀ n, 2 ^ 4 ≤ n → n < 2 ^ 8 → Group.tryFrom n = .error (.overflow n 4))
    ∧ (∀ n, 2 ^ 7 ≤ n → n < 2 ^ 8 → Voice.Note.tryFrom n = .error (.overflow n 7))
    ∧ (∀ n, 2 ^ 7 ≤ n → n < 2 ^ 8 → Voice.Bank.tryFrom n = .error (.overflow n 7))
    ∧ (∀ n, 2 ^ 7 ≤ n → n < 2 ^ 8 → Voice.Controller.tryFrom n = .error (.overflow n 7))
    ∧ (∀ n, 2 ^ 7 ≤ n → n < 2 ^ 8 → Voice.Pitch.tryFrom n = .error (.overflow n 7))
    ∧ (∀ n, 2 ^ 9 ≤ n → n < 2 ^ 16 → Voice.Fractional.tryFrom n = .error (.overflow n 9))
    ∧ (∀ n, 2 ^ 4 ≤ n → n < 2 ^ 8 → Common.Data.tryFrom n = .error (.overflow n 4)) := by
  refine ⟨fun n h1 h2 => ?_, fun n h1 h2 => ?_, fun n h1 h2 => ?_,
    fun n h1 h2 => ?_, fun n h1 h2 => ?_, fun n h1 h2 => ?_, fun n h1 h2 => ?_⟩
  · unfold Group.tryFrom
    rw [dif_neg (by omega)]
  · unfold Voice.Note.tryFrom
    rw [dif_neg (by omega)]
  · unfold Voice.Bank.tryFrom
    rw [dif_neg (by omega)]
  · unfold Voice.Controller.tryFrom
    rw [dif_neg (by omega)]
  · unfold Voice.Pitch.tryFrom
    rw [dif_neg (by omega)]
  · unfold Voice.Fractional.tryFrom
    rw [dif_neg (by omega)]
  · unfold Common.Data.tryFrom
    rw [dif_neg (by omega)]

/-- Witness for C6: `Note::try_new(200)` fails with Overflow(200, 7)
(Scenario D of the spec). -/
theorem c6_overflow_rejection_witness :
    Voice.Note.tryFrom 200 = .error (.overflow 200 7) :=
  c6_overflow_rejection.2.1 200 (by norm_num) (by norm_num)

/-- Claim C7 (confirmed): `TimingClock::try_init` on a 1-word zero
buffer succeeds and yields exactly the packet word 0x10f80000 (message
type System 0x1, group 0, status TimingClock 0xf8, all remaining bits
zero). -/
theorem c7_timingClock_scenario :
    (RealTime.TimingClock.tryInit 32 zeroBits).map (fun b => wordAt b 0)
      = .ok 0x10f80000 := by
  decide

/-- Claim C8 (confirmed): for every message kind and valid init
arguments, if `try_init` produced the packet bit pattern `p`, then
calling `reset` (which zeroes the whole packet) and `try_init` again
with the same arguments reproduces exactly `p`. -/
theorem c8_reset_reinit :
    ∀ (k : Kind) (a : Kind.Args k) (len : Nat) (bits p : Nat → Bool),
      tryInitK k a len bits = .ok p → tryInitK k a len (resetBits p) = .ok p := by
  intro k a len bits p h
  cases k <;> exact h

/-- Witness for C8: the TimingClock init at length 32, re-run after a
reset of its own output, reproduces the same bit pattern. -/
theorem c8_reset_reinit_witness :
    tryInitK Kind.TimingClock () 32 zeroBits
      = .ok (System.Status.write .TimingClock (Group.write Group.zero
        (MessageType.write .System (resetBits zeroBits))))
    ∧ tryInitK Kind.TimingClock () 32
        (resetBits (System.Status.write .TimingClock (Group.write Group.zero
          (MessageType.write .System (resetBits zeroBits)))))
      = .ok (System.Status.write .TimingClock (Group.write Group.zero
        (MessageType.write .System (resetBits zeroBits)))) :=
  ⟨rfl, c8_reset_reinit Kind.TimingClock () 32 zeroBits _ rfl⟩

/-- Claim C9 (confirmed): reading the timecode quarter-frame Type
sub-field (3 bits at 17..=19) is total: for every packet bit pattern the
decode succeeds, since every 3-bit code 0..7 maps to a variant and the
Conversion branch of `Type::try_from` is unreachable for loaded
values. -/
theorem c9_tcType_read_total :
    ∀ bits : Nat → Bool, ∃ t, Common.TcType.tryRead bits = .ok t := by
  intro bits
  have h : loadBe bits 17 3 < 8 := loadBeBound bits 17 3
  unfold Common.TcType.tryRead
  generalize loadBe bits 17 3 = n at h ⊢
  interval_cases n <;> exact ⟨_, rfl⟩

/-- Claim C10 (confirmed): `try_init` is insensitive to the buffer's
prior contents: on two correctly sized buffers with arbitrary initial
contents and equal arguments it produces bit-identical packets, because
initialization first zeroes the entire packet. -/
theorem c10_init_insensitive :
    ∀ (k : Kind) (a : Kind.Args k) (len : Nat) (b1 b2 : Nat → Bool),
      len = k.words * 32 → tryInitK k a len b1 = tryInitK k a len b2 := by
  intro k a len b1 b2 _h
  cases k <;> rfl

/-- Witness for C10: NoteOn init over the all-zero and the all-one
64-bit buffers produces identical results. -/
theorem c10_init_insensitive_witness :
    tryInitK Kind.NoteOn (⟨64, by norm_num⟩, ⟨32745, by norm_num⟩) 64 zeroBits
      = tryInitK Kind.NoteOn (⟨64, by norm_num⟩, ⟨32745, by norm_num⟩) 64
        (fun _ => true) :=
  c10_init_insensitive Kind.NoteOn _ 64 zeroBits (fun _ => true) rfl

end Midi2
